import Mathlib

/-!
Shallow embedding of the irregularity-and-relationship analysis core of the
`contratos-publicos` repository (files `src/suspicious_patterns.py`,
`src/associations.py`, `src/entities.py`, repository queries from
`src/database.py`), together with theorems settling the frozen claims.

Modelling conventions:
* Python `float` values are modelled as `ℚ` (all constants and inputs in the
  claims are exactly representable).
* Python `dict.get(k, default)` on a record field that may be absent is
  modelled as `Option.getD`; `none` models an absent field.
* Python string truthiness (`if not s`) is modelled by normalising the empty
  string to `none`.
* Exceptions escaping a function are modelled with `Except Unit`; code wrapped
  in `try/except: continue` is modelled with `Option`-valued parsing.
-/

set_option maxRecDepth 2000

namespace BotAjustos

/-- Boolean list-prefix test on characters. -/
def isPrefixB : List Char → List Char → Bool
  | [], _ => true
  | _ :: _, [] => false
  | x :: xs, y :: ys => x == y && isPrefixB xs ys

/-- Boolean contiguous-substring test on characters (Python `in` on `str`).
The empty needle matches every haystack, as in Python. -/
def isInfixB (xs : List Char) : List Char → Bool
  | [] => isPrefixB xs []
  | y :: t => isPrefixB xs (y :: t) || isInfixB xs t

/-- Python `needle in hay` for strings. -/
def pySubstrB (needle hay : String) : Bool :=
  isInfixB needle.data hay.data

/-- CPython `str.lower` restricted to Basic Latin and Latin-1 letters
(`A`-`Z` and `À`-`Þ` except `×` map by +32); every character appearing in
this repository's string constants falls in that range. -/
def pyCharLower (c : Char) : Char :=
  if 'A' ≤ c ∧ c ≤ 'Z' then Char.ofNat (c.toNat + 32)
  else if 'À' ≤ c ∧ c ≤ 'Þ' ∧ c ≠ '×' then Char.ofNat (c.toNat + 32)
  else c

/-- Python `s.lower()`. -/
def pyLowerStr (s : String) : String :=
  ⟨s.data.map pyCharLower⟩

/-- SQLite `LIKE` case folding: ASCII letters only (non-ASCII characters are
compared case-sensitively by SQLite's default `LIKE`). -/
def asciiCharLower (c : Char) : Char :=
  if 'A' ≤ c ∧ c ≤ 'Z' then Char.ofNat (c.toNat + 32)
  else c

/-- SQLite `LIKE` matching with the default behaviour and no `ESCAPE`
clause: `%` matches any sequence of zero or more characters, `_` matches
exactly one character, and every other character matches with ASCII-only
case folding. The fuel argument only bounds the recursion: every recursive
call strictly shortens pattern-plus-haystack, so the caller below supplies
fuel exceeding their combined length and the `0` arm is never reached. -/
def likeMatchF : Nat → List Char → List Char → Bool
  | 0, _, _ => false
  | _ + 1, [], [] => true
  | _ + 1, [], _ :: _ => false
  | f + 1, '%' :: ps, hs =>
    likeMatchF f ps hs ||
      (match hs with
       | [] => false
       | _ :: t => likeMatchF f ('%' :: ps) t)
  | _ + 1, '_' :: _, [] => false
  | f + 1, '_' :: ps, _ :: hs => likeMatchF f ps hs
  | _ + 1, _ :: _, [] => false
  | f + 1, p :: ps, h :: hs =>
    (asciiCharLower p == asciiCharLower h) && likeMatchF f ps hs

/-- SQLite `col LIKE '%pat%'` on a non-NULL text value (the call sites
interpolate the query as `f"%{q}%"`): any `%` or `_` inside the
interpolated needle acts as a wildcard, so e.g. the query `%` matches every
non-NULL value. The initial pattern has length `pat.length + 2`, hence the
fuel `pat.length + hay.length + 3` suffices. -/
def sqlLikeContains (pat hay : String) : Bool :=
  likeMatchF (pat.data.length + hay.data.length + 3)
    ('%' :: (pat.data ++ ['%'])) hay.data

/-- Lexicographic `≤` on character lists (SQLite BINARY text order and
Python string order agree with code-point order on UTF-8 text). -/
def charListLeB : List Char → List Char → Bool
  | [], _ => true
  | _ :: _, [] => false
  | x :: xs, y :: ys => if x == y then charListLeB xs ys else decide (x < y)

/-- String `≤` used for `ORDER BY` and Python sort keys. -/
def strLeB (a b : String) : Bool :=
  charListLeB a.data b.data

/-- `≤` on nullable sort keys with SQL semantics: `NULL` sorts below every
text value. -/
def optStrLeB : Option String → Option String → Bool
  | none, _ => true
  | some _, none => false
  | some a, some b => strLeB a b

/-- Numeric equality on `ℚ` as two comparisons (Python `==` on numbers;
antisymmetry makes this plain equality, see `qEqB_eq`). -/
def qEqB (a b : ℚ) : Bool :=
  decide (a ≤ b) && decide (b ≤ a)

/-- Python `x in xs` on a list of numbers. -/
def qMemB (x : ℚ) (xs : List ℚ) : Bool :=
  xs.any (qEqB x)

/-- Python truthiness of an optional string: `None` and `''` are falsy. -/
def dTruthy : Option String → Option String
  | none => none
  | some s => if s = "" then none else some s

/-- Python `str(x)` on an optional string (used inside f-strings, where a
`None` field prints as `"None"`). -/
def pyStr : Option String → String
  | none => "None"
  | some s => s

-- ==================== Legal Threshold Model ====================
-- Source: `suspicious_patterns.py`, class `LimitesLegais`.

namespace LimitesLegais

def AJUSTE_DIRETO_BENS_SERVICOS : ℚ := 75000
def AJUSTE_DIRETO_OBRAS : ℚ := 150000
def CONSULTA_PREVIA_BENS_SERVICOS : ℚ := 214000
def CONSULTA_PREVIA_OBRAS : ℚ := 548000
def CONCURSO_PUBLICO_BENS_SERVICOS : ℚ := 214000
def CONCURSO_PUBLICO_OBRAS : ℚ := 548000
def UE_BENS_SERVICOS : ℚ := 140000
def UE_OBRAS : ℚ := 5382000
def MARGEM_SUSPEITA_PERCENTAGEM : ℚ := 5
def MARGEM_ALTA_SUSPEITA : ℚ := 1

/-- `LimitesLegais.get_limite_ajuste_direto`: works ceiling when the free-text
category mentions `obra` or `empreitada`, else the goods/services ceiling. -/
def get_limite_ajuste_direto (tipo_contrato : String) : ℚ :=
  if pySubstrB "obra" (pyLowerStr tipo_contrato) ∨
      pySubstrB "empreitada" (pyLowerStr tipo_contrato) then
    AJUSTE_DIRETO_OBRAS
  else AJUSTE_DIRETO_BENS_SERVICOS

/-- `LimitesLegais.get_limite_consulta_previa`. -/
def get_limite_consulta_previa (tipo_contrato : String) : ℚ :=
  if pySubstrB "obra" (pyLowerStr tipo_contrato) ∨
      pySubstrB "empreitada" (pyLowerStr tipo_contrato) then
    CONSULTA_PREVIA_OBRAS
  else CONSULTA_PREVIA_BENS_SERVICOS

end LimitesLegais

-- ==================== Dates ====================

/-- Leap year as computed by Python's `calendar`/`datetime`. -/
def bissexto (y : Nat) : Bool :=
  y % 4 == 0 && (y % 100 != 0 || y % 400 == 0)

/-- Days in a month. -/
def diasNoMes (y m : Nat) : Nat :=
  if m = 2 then (if bissexto y then 29 else 28)
  else if m = 4 ∨ m = 6 ∨ m = 9 ∨ m = 11 then 30
  else 31

/-- Numeric value of a digit string. -/
def digitosParaNat (cs : List Char) : Nat :=
  cs.foldl (fun n c => n * 10 + (c.toNat - 48)) 0

/-- A field of one to `w` decimal digits (CPython's `%m` directive,
`1[0-2]|0[1-9]|[1-9]`, is exactly the 1-2 digit strings whose value lies in
1..12, which the caller checks). -/
def campoValido (w : Nat) (s : String) : Bool :=
  s.data ≠ [] && s.data.all Char.isDigit && s.data.length ≤ w

/-- CPython's `%d` directive, `3[01]|[12]\d|0[1-9]|[1-9]| [1-9]`: one or two
digits, or a space-padded single digit 1-9; the numeric value (the caller
checks the 1..days-in-month range, as `datetime.date` does). -/
def diaCampo (s : String) : Option Nat :=
  match s.data with
  | [' ', c] => if '1' ≤ c ∧ c ≤ '9' then some (c.toNat - 48) else none
  | cs =>
    if cs ≠ [] ∧ cs.all Char.isDigit ∧ cs.length ≤ 2 then
      some (digitosParaNat cs)
    else none

/-- `datetime.strptime(s, '%Y-%m-%d')`, returning the date as `(y, m, d)` on
success and `none` where Python raises `ValueError`: `%Y` is exactly four
digits (`\d\d\d\d`), `%m` one or two digits valued 1-12, `%d` one or two
digits or a space-padded digit, the whole string must be consumed, the year
must be at least `MINYEAR = 1` and the day must exist in the month
(`datetime.date` validation, leap years included). -/
def parseDate (s : String) : Option (Nat × Nat × Nat) :=
  match s.splitOn "-" with
  | [ys, ms, ds] =>
    if (ys.data.length == 4 && ys.data.all Char.isDigit) && campoValido 2 ms
    then
      match diaCampo ds with
      | none => none
      | some d =>
        let y := digitosParaNat ys.data
        let m := digitosParaNat ms.data
        if 1 ≤ y ∧ 1 ≤ m ∧ m ≤ 12 ∧ 1 ≤ d ∧ d ≤ diasNoMes y m then
          some (y, m, d)
        else none
    else none
  | _ => none

/-- Days since 1970-01-01 of a civil date (standard days-from-civil
computation); used to model `datetime` comparison and `timedelta` addition. -/
def diasDesdeEpoca : Nat × Nat × Nat → Int
  | (y, m, d) =>
    let y' : Int := if m ≤ 2 then (y : Int) - 1 else (y : Int)
    let era : Int := y' / 400
    let yoe : Int := y' - era * 400
    let mp : Int := ((m : Int) + 9) % 12
    let doy : Int := (153 * mp + 2) / 5 + (d : Int) - 1
    let doe : Int := yoe * 365 + yoe / 4 - yoe / 100 + doy
    era * 146097 + doe - 719468

/-- Python `date.weekday()`: Monday = 0 … Sunday = 6. -/
def diaDaSemana (d : Nat × Nat × Nat) : Int :=
  (diasDesdeEpoca d + 3) % 7

/-- Two-digit zero padding. -/
def pad2 (n : Nat) : String :=
  if n < 10 then "0" ++ toString n else toString n

/-- Python `data.strftime('%m-%d')`. -/
def mesDia (d : Nat × Nat × Nat) : String :=
  pad2 d.2.1 ++ "-" ++ pad2 d.2.2

-- ==================== Data model ====================

/-- A row of the `contratos` table (`database.py`, `_create_tables`;
presentation-only columns such as `distrito`, `cpv` or `link_base` are not
read by any analysed function and are omitted). `id_contrato` is declared
`TEXT UNIQUE NOT NULL`, so it is modelled as a plain `String`; the remaining
columns are nullable, and `none` models SQL `NULL` / an absent field. -/
structure Contrato where
  id_contrato : String
  adjudicante : Option String := none
  adjudicante_nif : Option String := none
  adjudicataria : Option String := none
  adjudicataria_nif : Option String := none
  valor : Option ℚ := none
  data_contrato : Option String := none
  data_publicacao : Option String := none
  tipo_contrato : Option String := none
  tipo_procedimento : Option String := none
  objeto_contrato : Option String := none
  descricao : Option String := none
deriving DecidableEq, Repr

/-- A detected pattern (`padrão`), one dict appended by the rule functions of
`SuspiciousPatternDetector`. The keys vary by rule; absent keys are `none`.
The presentation-only `descricao` and `percentagem_abaixo` fields (f-strings
and float percentages) are omitted. -/
structure Padrao where
  tipo : String
  gravidade : String
  subtipo : Option String := none
  id_contrato : Option String := none
  valor : Option ℚ := none
  limite : Option ℚ := none
  distancia : Option ℚ := none
  procedimento : Option String := none
  adjudicante : Option String := none
  adjudicataria : Option String := none
  num_contratos : Option Nat := none
  valor_total : Option ℚ := none
  periodo_dias : Option Int := none
  contratos_ids : Option (List String) := none
  data_inicio : Option String := none
  limite_evitado : Option ℚ := none
  data : Option String := none
deriving DecidableEq, Repr

/-- The detector configuration (`SuspiciousPatternDetector._get_default_config`
keys; an immutable record standing for the config dict). -/
structure Config where
  detectar_valores_suspeitos : Bool
  margem_suspeita_percentagem : ℚ
  margem_alta_suspeita_percentagem : ℚ
  detectar_fracionamento : Bool
  janela_fracionamento_dias : Int
  min_contratos_fracionamento : Nat
  detectar_contratos_repetidos : Bool
  min_contratos_repetidos : Nat
  detectar_concentracao_temporal : Bool
  janela_concentracao_dias : Int
  min_contratos_concentracao : Nat
  detectar_valores_redondos : Bool
  valores_redondos_suspeitos : List ℚ
  detectar_procedimento_inadequado : Bool
  detectar_vesperas_feriados : Bool
  detectar_finais_mandato : Bool
deriving Repr

/-- `SuspiciousPatternDetector._get_default_config`. -/
def defaultConfig : Config where
  detectar_valores_suspeitos := true
  margem_suspeita_percentagem := 5
  margem_alta_suspeita_percentagem := 1
  detectar_fracionamento := true
  janela_fracionamento_dias := 365
  min_contratos_fracionamento := 3
  detectar_contratos_repetidos := true
  min_contratos_repetidos := 5
  detectar_concentracao_temporal := true
  janela_concentracao_dias := 30
  min_contratos_concentracao := 10
  detectar_valores_redondos := true
  valores_redondos_suspeitos :=
    [74900, 74950, 74990, 74999,
     149900, 149950, 149990, 149999,
     213900, 213950, 213990, 213999]
  detectar_procedimento_inadequado := true
  detectar_vesperas_feriados := true
  detectar_finais_mandato := true

/-- `contrato.get('valor', 0)` (an absent value behaves as 0). -/
def cValor (c : Contrato) : ℚ := c.valor.getD 0

/-- `contrato.get('tipo_contrato', '')`. -/
def cTipo (c : Contrato) : String := c.tipo_contrato.getD ""

-- ==================== Rule 1: near-threshold values ====================
-- Source: `SuspiciousPatternDetector._detectar_valores_suspeitos`.

/-- The finding rule 1 emits for one contract, if any. -/
def padraoValorSuspeito (cfg : Config) (c : Contrato) : Option Padrao :=
  let valor := cValor c
  let tipo := cTipo c
  let procedimento := pyLowerStr (c.tipo_procedimento.getD "")
  if valor ≤ 0 then none
  else
    let limite_ajuste := LimitesLegais.get_limite_ajuste_direto tipo
    let margem_normal := limite_ajuste * (cfg.margem_suspeita_percentagem / 100)
    let margem_alta := limite_ajuste * (cfg.margem_alta_suspeita_percentagem / 100)
    if limite_ajuste - margem_normal ≤ valor ∧ valor ≤ limite_ajuste then
      let distancia := limite_ajuste - valor
      let grav0 := if distancia ≤ margem_alta then "alta" else "media"
      let gravidade := if pySubstrB "ajuste" procedimento then "alta" else grav0
      some { tipo := "valor_suspeito_limite", subtipo := some "ajuste_direto",
             gravidade := gravidade, id_contrato := some c.id_contrato,
             valor := some valor, limite := some limite_ajuste,
             distancia := some distancia, procedimento := some procedimento }
    else none

/-- `_detectar_valores_suspeitos`. -/
def detectarValoresSuspeitos (cfg : Config) (contratos : List Contrato) :
    List Padrao :=
  contratos.filterMap (padraoValorSuspeito cfg)

/-- A dynamically typed `valor` entry, as a Python dict can carry it: a
number or a string. The `Contrato` record above fixes `valor : Option ℚ`
(numeric or absent); this type exists to settle what rule 1 does on a
non-numeric value. -/
inductive PyVal where
  | num (q : ℚ)
  | str (s : String)
deriving DecidableEq, Repr

/-- The fields of a contract dict that rule 1 reads, with the value left
dynamically typed. -/
structure ContratoDin where
  id_contrato : String
  valor : Option PyVal := none
  tipo_contrato : Option String := none
  tipo_procedimento : Option String := none
deriving DecidableEq, Repr

/-- The rule-1 body on a dynamically typed value: its very first value
operation, `if valor <= 0:`, raises `TypeError` when the value is a string
(every later comparison or subtraction on it would too); a numeric value
follows exactly the typed `padraoValorSuspeito`. -/
def padraoValorSuspeitoDin (cfg : Config) (c : ContratoDin) :
    Except Unit (Option Padrao) :=
  match c.valor.getD (.num 0) with
  | .str _ => .error ()
  | .num v =>
    .ok (padraoValorSuspeito cfg
      { id_contrato := c.id_contrato, valor := some v,
        tipo_contrato := c.tipo_contrato,
        tipo_procedimento := c.tipo_procedimento })

/-- `_detectar_valores_suspeitos` over dynamically typed values. Rule 1 is
the first rule `analisar_contratos` runs, so an exception here aborts the
whole analysis before any other rule. -/
def detectarValoresSuspeitosDin (cfg : Config) :
    List ContratoDin → Except Unit (List Padrao)
  | [] => .ok []
  | c :: resto =>
    match padraoValorSuspeitoDin cfg c with
    | .error e => .error e
    | .ok r =>
      match detectarValoresSuspeitosDin cfg resto with
      | .error e => .error e
      | .ok rs => .ok (r.toList ++ rs)

-- ==================== Rule 5: engineered / round values ====================
-- Source: `SuspiciousPatternDetector._detectar_valores_redondos`.

/-- The findings rule 5 emits for one contract: exact membership in the
suspicious-value list, then, for each legal ceiling, a shortfall of exactly
1, 10, 50 or 100 within 100 below the ceiling. -/
def padroesValoresRedondos (cfg : Config) (c : Contrato) : List Padrao :=
  let valor := cValor c
  let exato : List Padrao :=
    if qMemB valor cfg.valores_redondos_suspeitos then
      [{ tipo := "valor_exato_suspeito", gravidade := "alta",
         id_contrato := some c.id_contrato, valor := some valor }]
    else []
  let calculados : List Padrao :=
    ([75000, 150000, 214000, 548000] : List ℚ).filterMap (fun limite =>
      if limite - 100 ≤ valor ∧ valor < limite then
        let diferenca := limite - valor
        if qMemB diferenca [1, 10, 50, 100] then
          some { tipo := "valor_calculado_suspeito", gravidade := "alta",
                 id_contrato := some c.id_contrato, valor := some valor,
                 limite_evitado := some limite }
        else none
      else none)
  exato ++ calculados

/-- `_detectar_valores_redondos`. -/
def detectarValoresRedondos (cfg : Config) (contratos : List Contrato) :
    List Padrao :=
  contratos.flatMap (padroesValoresRedondos cfg)

-- ==================== Rule 6: inadequate procedure ====================
-- Source: `SuspiciousPatternDetector._detectar_procedimento_inadequado`.

/-- The findings rule 6 emits for one contract. -/
def padroesProcedimento (c : Contrato) : List Padrao :=
  let valor := cValor c
  let procedimento := pyLowerStr (c.tipo_procedimento.getD "")
  let tipo := cTipo c
  if valor ≤ 0 ∨ procedimento = "" then []
  else
    let limite_ajuste := LimitesLegais.get_limite_ajuste_direto tipo
    let limite_consulta := LimitesLegais.get_limite_consulta_previa tipo
    (if pySubstrB "ajuste" procedimento ∧ limite_ajuste < valor then
      [{ tipo := "procedimento_inadequado", gravidade := "alta",
         id_contrato := some c.id_contrato, valor := some valor,
         procedimento := some procedimento }]
    else []) ++
    (if pySubstrB "consulta" procedimento ∧ limite_consulta < valor then
      [{ tipo := "procedimento_inadequado", gravidade := "alta",
         id_contrato := some c.id_contrato, valor := some valor,
         procedimento := some procedimento }]
    else [])

/-- `_detectar_procedimento_inadequado`. -/
def detectarProcedimentoInadequado (contratos : List Contrato) : List Padrao :=
  contratos.flatMap padroesProcedimento

-- ==================== Grouping helper ====================

/-- First occurrence of each element, in order (insertion order of the keys of
a Python `defaultdict`). -/
def dedupPrimeiros [BEq α] (vistos : List α) : List α → List α
  | [] => []
  | x :: xs =>
    if vistos.contains x then dedupPrimeiros vistos xs
    else x :: dedupPrimeiros (x :: vistos) xs

/-- `defaultdict(list)` grouping: keys in first-occurrence order, each paired
with the sublist of elements carrying that key, in input order. -/
def agruparPor [BEq κ] (f : α → κ) (l : List α) : List (κ × List α) :=
  (dedupPrimeiros [] (l.map f)).map (fun k => (k, l.filter (fun x => f x == k)))

-- ==================== Rule 3: repeated counterparts ====================
-- Source: `SuspiciousPatternDetector._detectar_contratos_repetidos`.

/-- Rule 3 group key: `(adjudicante, adjudicatária)`. -/
def repChave (c : Contrato) : String × String :=
  (c.adjudicante.getD "", c.adjudicataria.getD "")

/-- `_detectar_contratos_repetidos`. -/
def detectarContratosRepetidos (cfg : Config) (contratos : List Contrato) :
    List Padrao :=
  (agruparPor repChave contratos).filterMap (fun par =>
    if cfg.min_contratos_repetidos ≤ par.2.length then
      some { tipo := "contratos_repetidos", gravidade := "media",
             num_contratos := some par.2.length,
             valor_total := some (par.2.map cValor).sum }
    else none)

-- ==================== Rule 2: fractioning ====================
-- Source: `SuspiciousPatternDetector._detectar_fracionamento`.

/-- Rule 2 group key: `(adjudicante, adjudicatária, tipo, objeto[:50])`. -/
def fracChave (c : Contrato) : String × String × String × String :=
  (c.adjudicante.getD "", c.adjudicataria.getD "", cTipo c,
   (c.objeto_contrato.getD "").take 50)

/-- The window comprehension of rule 2: contracts of the group suffix whose
(truthy) date parses and lies at or before day `fim`; a malformed date raises
(`strptime` is not guarded here). -/
def janelaFrac (fim : Int) : List Contrato → Except Unit (List Contrato)
  | [] => .ok []
  | c :: resto =>
    match dTruthy c.data_contrato with
    | none => janelaFrac fim resto
    | some s =>
      match parseDate s with
      | none => .error ()
      | some d =>
        match janelaFrac fim resto with
        | .error e => .error e
        | .ok r => if diasDesdeEpoca d ≤ fim then .ok (c :: r) else .ok r

/-- The `for i, contrato in enumerate(contratos_par)` loop of rule 2 over one
(sorted) group, reporting at most one finding and stopping at the first
qualifying window (`break`). -/
def fracLoop (cfg : Config) (chave : String × String × String × String) :
    List Contrato → Except Unit (Option Padrao)
  | [] => .ok none
  | c :: resto =>
    match dTruthy c.data_contrato with
    | none => fracLoop cfg chave resto
    | some s =>
      match parseDate s with
      | none => .error ()
      | some d =>
        match janelaFrac (diasDesdeEpoca d + cfg.janela_fracionamento_dias)
            (c :: resto) with
        | .error e => .error e
        | .ok janela =>
          if cfg.min_contratos_fracionamento ≤ janela.length then
            match janela with
            | [] => .error ()  -- IndexError on `contratos_janela[0]`
            | j0 :: _ =>
              if LimitesLegais.get_limite_ajuste_direto (cTipo j0) <
                  (janela.map cValor).sum then
                .ok (some { tipo := "fracionamento_suspeito",
                            gravidade := "alta",
                            adjudicante := some chave.1,
                            adjudicataria := some chave.2.1,
                            num_contratos := some janela.length,
                            valor_total := some (janela.map cValor).sum,
                            periodo_dias := some cfg.janela_fracionamento_dias,
                            contratos_ids :=
                              some (janela.map Contrato.id_contrato) })
              else fracLoop cfg chave resto
          else fracLoop cfg chave resto

/-- The `for par, contratos_par in pares.items()` loop of rule 2: skip small
groups, sort each group by its date string (stably, as Python's
`list.sort`), scan windows; an exception aborts the whole loop. -/
def fracGrupos (cfg : Config) :
    List ((String × String × String × String) × List Contrato) →
    Except Unit (List Padrao)
  | [] => .ok []
  | (chave, grupo) :: resto =>
    if grupo.length < cfg.min_contratos_fracionamento then
      fracGrupos cfg resto
    else
      match fracLoop cfg chave (grupo.mergeSort (fun a b =>
          strLeB (a.data_contrato.getD "") (b.data_contrato.getD ""))) with
      | .error e => .error e
      | .ok r =>
        match fracGrupos cfg resto with
        | .error e => .error e
        | .ok acc => .ok (r.toList ++ acc)

/-- `_detectar_fracionamento`. -/
def detectarFracionamento (cfg : Config) (contratos : List Contrato) :
    Except Unit (List Padrao) :=
  fracGrupos cfg (agruparPor fracChave contratos)

-- ==================== Rule 4: temporal concentration ====================
-- Source: `SuspiciousPatternDetector._detectar_concentracao_temporal`.

/-- The window comprehension of rule 4: all dates in the suffix are parsed
(unguarded `strptime`), keeping those at or before day `fim`. -/
def janelaConc (fim : Int) : List Contrato → Except Unit (List Contrato)
  | [] => .ok []
  | c :: resto =>
    match parseDate (c.data_contrato.getD "") with
    | none => .error ()
    | some d =>
      match janelaConc fim resto with
      | .error e => .error e
      | .ok r => if diasDesdeEpoca d ≤ fim then .ok (c :: r) else .ok r

/-- The scan of rule 4 over the date-sorted contracts, stopping at the first
window with enough contracts (`break`). -/
def concLoop (cfg : Config) : List Contrato → Except Unit (Option Padrao)
  | [] => .ok none
  | c :: resto =>
    match parseDate (c.data_contrato.getD "") with
    | none => .error ()
    | some d =>
      match janelaConc (diasDesdeEpoca d + cfg.janela_concentracao_dias)
          (c :: resto) with
      | .error e => .error e
      | .ok janela =>
        if cfg.min_contratos_concentracao ≤ janela.length then
          .ok (some { tipo := "concentracao_temporal", gravidade := "media",
                      data_inicio := c.data_contrato,
                      num_contratos := some janela.length,
                      valor_total := some (janela.map cValor).sum })
        else concLoop cfg resto

/-- `_detectar_concentracao_temporal`. -/
def detectarConcentracaoTemporal (cfg : Config) (contratos : List Contrato) :
    Except Unit (List Padrao) :=
  let datas := contratos.filter (fun c => (dTruthy c.data_contrato).isSome)
  if datas.isEmpty then .ok []
  else
    match concLoop cfg (datas.mergeSort (fun a b =>
        strLeB (a.data_contrato.getD "") (b.data_contrato.getD ""))) with
    | .error e => .error e
    | .ok r => .ok r.toList

-- ==================== Rule 7: eve-of-holiday publication ====================
-- Source: `SuspiciousPatternDetector._detectar_vesperas_feriados`.

/-- Fixed list of Portuguese public-holiday month-days. -/
def feriados : List String :=
  ["01-01", "04-25", "05-01", "06-10", "08-15",
   "10-05", "11-01", "12-01", "12-08", "12-25"]

/-- The findings rule 7 emits for one contract. The whole body is wrapped in
`try/except: continue`, so a malformed date silently yields no finding. -/
def padroesVesperas (c : Contrato) : List Padrao :=
  let dataStr := match dTruthy c.data_publicacao with
    | some s => some s
    | none => dTruthy c.data_contrato
  match dataStr with
  | none => []
  | some ds =>
    match parseDate ds with
    | none => []
    | some d =>
      (if diaDaSemana d == 4 then
        [{ tipo := "publicacao_vespera", subtipo := some "fim_semana",
           gravidade := "baixa", id_contrato := some c.id_contrato,
           data := some ds }]
      else []) ++
      (if mesDia d ∈ feriados then
        [{ tipo := "publicacao_vespera", subtipo := some "feriado",
           gravidade := "media", id_contrato := some c.id_contrato,
           data := some ds }]
      else [])

/-- `_detectar_vesperas_feriados`. -/
def detectarVesperasFeriados (contratos : List Contrato) : List Padrao :=
  contratos.flatMap padroesVesperas

-- ==================== Entry point ====================
-- Source: `SuspiciousPatternDetector.analisar_contratos`.

/-- `analisar_contratos`: run every enabled rule in order and concatenate the
findings; an exception raised by the fractioning or temporal-concentration
rule propagates out of the call (the two explicit matches are the monadic
binds of the two fallible rules). -/
def analisarContratos (cfg : Config) (contratos : List Contrato) :
    Except Unit (List Padrao) :=
  match (if cfg.detectar_fracionamento then
      detectarFracionamento cfg contratos else .ok []) with
  | .error e => .error e
  | .ok p2 =>
    match (if cfg.detectar_concentracao_temporal then
        detectarConcentracaoTemporal cfg contratos else .ok []) with
    | .error e => .error e
    | .ok p4 =>
      .ok ((if cfg.detectar_valores_suspeitos then
              detectarValoresSuspeitos cfg contratos else []) ++
           p2 ++
           (if cfg.detectar_contratos_repetidos then
              detectarContratosRepetidos cfg contratos else []) ++
           p4 ++
           (if cfg.detectar_valores_redondos then
              detectarValoresRedondos cfg contratos else []) ++
           (if cfg.detectar_procedimento_inadequado then
              detectarProcedimentoInadequado contratos else []) ++
           (if cfg.detectar_vesperas_feriados then
              detectarVesperasFeriados contratos else []))

/-- State-passing form of `analisar_contratos` over the contract store. The
Python rules build fresh grouping/sorting structures (`defaultdict` values,
filtered copies) and sort only those; no statement assigns into the input
list or into a contract record, so the translation returns the store
untouched alongside the findings. -/
def analisarContratosSt (cfg : Config) (contratos : List Contrato) :
    List Contrato × Except Unit (List Padrao) :=
  (contratos, analisarContratos cfg contratos)

-- ==================== Repository data model ====================
-- Source: tables of `database.py` and `associations.py`.

/-- A row of `pessoas` (`associations.py`). -/
structure Pessoa where
  id : Nat
  nome : String
  cargo_politico : String := ""
  partido : String := ""
deriving DecidableEq, Repr

/-- A row of `cargos_politicos`; `ativo ⇔ data_fim` is falsy at insertion
(`adicionar_cargo_politico`), and `entidade` defaults to the empty string. -/
structure CargoPolitico where
  pessoa_id : Nat
  cargo : String
  entidade : String := ""
  partido : String := ""
  data_inicio : Option String := none
  data_fim : Option String := none
  ativo : Bool := true
deriving DecidableEq, Repr

/-- A row of `associacoes_pessoa_empresa`. -/
structure Associacao where
  pessoa_id : Nat
  empresa_nome : String
  empresa_nif : String := ""
  tipo_relacao : String
  percentagem_participacao : ℚ := 0
  data_inicio : Option String := none
  data_fim : Option String := none
  ativo : Bool := true
  fonte : String := ""
deriving DecidableEq, Repr

/-- A persisted row of `conflitos_interesse`. -/
structure ConflitoRow where
  pessoa_id : Nat
  empresa_nome : String
  id_contrato : String
  tipo_conflito : String
  descricao : String
  gravidade : String
  verificado : Bool := false
deriving DecidableEq, Repr

/-- A row of `figuras_interesse` (`database.py`). -/
structure Figura where
  id : Nat
  nome : String
  nif : Option String := none
  tipo : String := "pessoa"
  ativo : Bool := true
deriving DecidableEq, Repr

/-- The repository state: the tables read (and, for `conflitos`, written) by
the analysed code. -/
structure BD where
  contratos : List Contrato := []
  figuras : List Figura := []
  pessoas : List Pessoa := []
  cargos : List CargoPolitico := []
  associacoes : List Associacao := []
  conflitos : List ConflitoRow := []
deriving DecidableEq, Repr

-- ==================== Repository queries ====================

/-- `ORDER BY data_contrato DESC` (SQL `NULL` sorts below every text value,
hence last under `DESC`). -/
def ordenarPorDataDesc (l : List Contrato) : List Contrato :=
  l.mergeSort (fun a b => optStrLeB b.data_contrato a.data_contrato)

/-- `pesquisar_contratos({'adjudicante': nome})` (`database.py`): the filter
is applied only when the value is truthy, an empty string returns every
contract. -/
def pesquisarContratosAdjudicante (db : BD) (nome : String) : List Contrato :=
  ordenarPorDataDesc (if nome = "" then db.contratos
    else db.contratos.filter (fun c =>
      match c.adjudicante with
      | some s => sqlLikeContains nome s
      | none => false))

/-- `pesquisar_contratos({'adjudicataria': nome})`. -/
def pesquisarContratosAdjudicataria (db : BD) (nome : String) : List Contrato :=
  ordenarPorDataDesc (if nome = "" then db.contratos
    else db.contratos.filter (fun c =>
      match c.adjudicataria with
      | some s => sqlLikeContains nome s
      | none => false))

/-- `AssociationsManager.pesquisar_pessoa`: `LIKE '%nome%'` on the person
name, `ORDER BY nome`. -/
def pesquisarPessoa (db : BD) (nome : String) : List Pessoa :=
  (db.pessoas.filter (fun p => sqlLikeContains nome p.nome)).mergeSort
    (fun a b => strLeB a.nome b.nome)

/-- `AssociationsManager.listar_associacoes_pessoa`:
`WHERE pessoa_id = ? ORDER BY ativo DESC, data_inicio DESC`. -/
def listarAssociacoesPessoa (db : BD) (pessoaId : Nat) : List Associacao :=
  (db.associacoes.filter (fun a => a.pessoa_id == pessoaId)).mergeSort
    (fun a b =>
      if a.ativo == b.ativo then optStrLeB b.data_inicio a.data_inicio
      else a.ativo)

/-- `listar_figuras_interesse()` with the default `apenas_ativas=True`:
active figures, `ORDER BY nome`. -/
def listarFigurasAtivas (db : BD) : List Figura :=
  (db.figuras.filter (·.ativo)).mergeSort (fun a b => strLeB a.nome b.nome)

/-- `pesquisar_contratos_por_figura` (`database.py`): contracts whose awarder
or awardee name contains the figure's name (`LIKE`), or whose tax ids equal
the figure's truthy tax id; missing figure returns the empty list. -/
def pesquisarContratosPorFigura (db : BD) (figuraId : Nat) : List Contrato :=
  match db.figuras.find? (fun f => f.id == figuraId) with
  | none => []
  | some fig =>
    ordenarPorDataDesc (db.contratos.filter (fun c =>
      (match c.adjudicante with
        | some s => sqlLikeContains fig.nome s
        | none => false) ||
      (match c.adjudicataria with
        | some s => sqlLikeContains fig.nome s
        | none => false) ||
      (match dTruthy fig.nif with
        | some nif => c.adjudicante_nif == some nif ||
            c.adjudicataria_nif == some nif
        | none => false)))

-- ==================== Conflict-of-interest detection ====================
-- Source: `AssociationsManager.detectar_conflitos_interesse` and
-- `AssociationsManager._registar_conflito`.

/-- One row of the `pessoas p JOIN cargos_politicos c` query: the person
fields used downstream plus the selected `c.cargo` and `c.entidade`. -/
structure PessoaPolitica where
  id : Nat
  nome : String
  cargo : String
  entidade : String
deriving BEq, DecidableEq, Repr

/-- The `SELECT DISTINCT` of persons holding at least one active political
position, optionally restricted to a truthy `pessoa_id`. -/
def pessoasPoliticas (db : BD) (pessoaId : Option Nat) : List PessoaPolitica :=
  let pares := db.pessoas.flatMap (fun p =>
    (db.cargos.filter (fun cg => cg.pessoa_id == p.id && cg.ativo)).map
      (fun cg => ({ id := p.id, nome := p.nome, cargo := cg.cargo,
                    entidade := cg.entidade } : PessoaPolitica)))
  let filtrado := match pessoaId with
    | some pid => if pid == 0 then pares else pares.filter (fun pp => pp.id == pid)
    | none => pares
  dedupPrimeiros [] filtrado

/-- Keyword list classifying an awarder as a public body. -/
def entidadesPublicas : List String :=
  ["câmara", "junta", "assembleia", "governo", "ministério",
   "instituto", "agência", "autarquia", "município", "freguesia"]

/-- High-office keyword list. -/
def cargosAltos : List String :=
  ["ministro", "secretário", "presidente", "deputado"]

/-- Is the contract's awarder a public body (case-insensitive keyword
substring on the lowered awarder name)? -/
def ehEntidadePublica (ct : Contrato) : Bool :=
  entidadesPublicas.any (fun kw =>
    pySubstrB kw (pyLowerStr (ct.adjudicante.getD "")))

/-- The sequential severity override chain of `detectar_conflitos_interesse`:
start at `media`; reassign `alta` on a high-office title keyword; reassign
`critica` when the position's lowered holding-entity name is a substring of
the lowered awarder name. -/
def gravidadeConflito (pp : PessoaPolitica) (adjudicanteLower : String) :
    String :=
  let g1 := if cargosAltos.any (fun kw => pySubstrB kw (pyLowerStr pp.cargo))
    then "alta" else "media"
  if pySubstrB (pyLowerStr pp.entidade) adjudicanteLower then "critica" else g1

/-- A detected conflict dict as appended to the result list. -/
structure ConflitoDet where
  tipo : String
  pessoa_id : Nat
  pessoa_nome : String
  cargo : String
  empresa : String
  id_contrato : String
  adjudicante : Option String
  valor : ℚ
  gravidade : String
  descricao : String
deriving DecidableEq, Repr

/-- Build the conflict dict for one (person-row, association, contract). -/
def mkConflito (pp : PessoaPolitica) (a : Associacao) (ct : Contrato) :
    ConflitoDet where
  tipo := "cargo_politico_empresa_contratos"
  pessoa_id := pp.id
  pessoa_nome := pp.nome
  cargo := pp.cargo
  empresa := a.empresa_nome
  id_contrato := ct.id_contrato
  adjudicante := ct.adjudicante
  valor := cValor ct
  gravidade := gravidadeConflito pp (pyLowerStr (ct.adjudicante.getD ""))
  descricao := pp.nome ++ " (" ++ pp.cargo ++ ") tem " ++ a.tipo_relacao ++
    " em " ++ a.empresa_nome ++ ", que tem contrato com " ++ pyStr ct.adjudicante

/-- The conflicts detected for one person-row: every active association,
every contract awarded to the associated company, kept when the awarder is a
public body. -/
def conflitosDePessoa (db : BD) (pp : PessoaPolitica) : List ConflitoDet :=
  (listarAssociacoesPessoa db pp.id).flatMap (fun a =>
    if a.ativo then
      (pesquisarContratosAdjudicataria db a.empresa_nome).filterMap (fun ct =>
        if ehEntidadePublica ct then some (mkConflito pp a ct) else none)
    else [])

/-- The full list of conflicts computed by one detection run (a pure read of
the repository; the scan never reads the `conflitos` table). -/
def conflitosDetectados (db : BD) (pessoaId : Option Nat) : List ConflitoDet :=
  (pessoasPoliticas db pessoaId).flatMap (conflitosDePessoa db)

/-- The persisted columns of a detected conflict. -/
def paraRow (c : ConflitoDet) : ConflitoRow where
  pessoa_id := c.pessoa_id
  empresa_nome := c.empresa
  id_contrato := c.id_contrato
  tipo_conflito := c.tipo
  descricao := c.descricao
  gravidade := c.gravidade

/-- The existence lookup of `_registar_conflito`:
`SELECT id FROM conflitos_interesse WHERE pessoa_id = ? AND id_contrato = ?`. -/
def temParConflito (tabela : List ConflitoRow) (c : ConflitoDet) : Bool :=
  tabela.any (fun r =>
    r.pessoa_id == c.pessoa_id && r.id_contrato == c.id_contrato)

/-- `_registar_conflito`: look up an existing row with the same
`(pessoa_id, id_contrato)` pair and insert only when none exists. -/
def registarConflito (tabela : List ConflitoRow) (c : ConflitoDet) :
    List ConflitoRow :=
  if temParConflito tabela c then tabela
  else tabela ++ [paraRow c]

/-- `detectar_conflitos_interesse`: return every conflict found in this run
and persist the new ones. In the source each conflict is registered as soon
as it is appended; since the scan never reads `conflitos`, computing the
list first and folding the guarded inserts afterwards is the same state
transformation. -/
def detectarConflitosInteresse (db : BD) (pessoaId : Option Nat) :
    BD × List ConflitoDet :=
  let cs := conflitosDetectados db pessoaId
  ({ db with conflitos := cs.foldl registarConflito db.conflitos }, cs)

-- ==================== Person-centric expansion search ====================
-- Source: `AssociationsManager.pesquisar_contratos_por_pessoa`.

/-- A company contract annotated with `_empresa_associada` and
`_tipo_associacao` (the source mutates the freshly fetched dicts; here the
annotations ride alongside the record). -/
structure ContratoAnotado where
  contrato : Contrato
  empresa_associada : String
  tipo_associacao : String
deriving DecidableEq, Repr

/-- The result dict of `pesquisar_contratos_por_pessoa`. -/
structure ResultadoPesquisa where
  pessoa : String
  contratos_diretos : List Contrato := []
  contratos_empresas : List ContratoAnotado := []
  empresas_associadas : List String := []
  total_contratos : Nat := 0
  valor_total : ℚ := 0
deriving DecidableEq, Repr

/-- `pesquisar_contratos_por_pessoa`: resolve the first matching person (the
initial empty result is returned unchanged when none matches), concatenate
the two direct lookups, expand through associated companies, and total over
direct plus company contracts. -/
def pesquisarContratosPorPessoa (db : BD) (nomePessoa : String) :
    ResultadoPesquisa :=
  match pesquisarPessoa db nomePessoa with
  | [] => { pessoa := nomePessoa }
  | pessoa :: _ =>
    let diretos := pesquisarContratosAdjudicante db nomePessoa ++
      pesquisarContratosAdjudicataria db nomePessoa
    let associacoes := listarAssociacoesPessoa db pessoa.id
    let empresas := associacoes.map (·.empresa_nome)
    let contratosEmpresas := empresas.flatMap (fun empresa =>
      (pesquisarContratosAdjudicataria db empresa).map (fun c =>
        { contrato := c, empresa_associada := empresa,
          tipo_associacao :=
            match associacoes.find? (fun a => a.empresa_nome == empresa) with
            | some a => a.tipo_relacao
            | none => "desconhecido" }))
    { pessoa := nomePessoa
      contratos_diretos := diretos
      contratos_empresas := contratosEmpresas
      empresas_associadas := empresas
      total_contratos := diretos.length + contratosEmpresas.length
      valor_total := (diretos.map cValor).sum +
        (contratosEmpresas.map (fun ca => cValor ca.contrato)).sum }

-- ==================== Connection discovery ====================
-- Source: `EntitiesManager.detetar_conexoes` and
-- `EntitiesManager._extrair_entidades_contrato`.

/-- One named party of a contract: `(nome, nif, papel)`. -/
structure EntRef where
  nome : String
  nif : String
  papel : String
deriving DecidableEq, Repr

/-- `_extrair_entidades_contrato`: the truthy awarder then the truthy
awardee. -/
def extrairEntidadesContrato (ct : Contrato) : List EntRef :=
  (match dTruthy ct.adjudicante with
    | some n => [⟨n, ct.adjudicante_nif.getD "", "adjudicante"⟩]
    | none => []) ++
  (match dTruthy ct.adjudicataria with
    | some n => [⟨n, ct.adjudicataria_nif.getD "", "adjudicataria"⟩]
    | none => [])

/-- A `Connection` dict (the nested `contrato` sub-dict is flattened into
`contrato_`-prefixed fields). -/
structure Conexao where
  origem_id : Nat
  destino_id : Nat
  destino_nome : String
  tipo_conexao : String
  nivel : Nat
  contrato_id : String
  contrato_descricao : Option String
  contrato_valor : Option ℚ
  contrato_data : Option String
deriving DecidableEq, Repr

/-- Resolve a party name to a registered active figure by exact
case-insensitive name equality (first match in `ORDER BY nome` order). -/
def resolverFigura (db : BD) (nome : String) : Option Nat :=
  ((listarFigurasAtivas db).find? (fun f =>
    pyLowerStr f.nome == pyLowerStr nome)).map (·.id)

/-- Processing of one popped figure: for each of its contracts and each named
party, resolve the party; emit a connection when the id is truthy, differs
from the current figure and is unvisited, and collect the enqueue items
(enqueued only while `nivel + 1 < profundidade`). -/
def passoFigura (db : BD) (prof atual nivel : Nat) (visitados : List Nat) :
    List Conexao × List (Nat × Nat × Option String) :=
  let emparelhados := (pesquisarContratosPorFigura db atual).flatMap (fun ct =>
    (extrairEntidadesContrato ct).filterMap (fun ent =>
      match resolverFigura db ent.nome with
      | none => none
      | some eid =>
        if eid ≠ 0 ∧ eid ≠ atual ∧ eid ∉ visitados then
          some (({ origem_id := atual, destino_id := eid,
                   destino_nome := ent.nome, tipo_conexao := ent.papel,
                   nivel := nivel + 1, contrato_id := ct.id_contrato,
                   contrato_descricao := ct.descricao,
                   contrato_valor := ct.valor,
                   contrato_data := ct.data_contrato } : Conexao),
                (eid, nivel + 1, some ct.id_contrato))
        else none))
  (emparelhados.map Prod.fst,
   if nivel + 1 < prof then emparelhados.map Prod.snd else [])

/-- The `while fila:` loop of `detetar_conexoes`. The fuel argument bounds
the number of loop iterations; each iteration pops one queue entry, so any
fuel at least `1 + (total entries ever enqueued)` computes the loop's actual
result. -/
def conexoesLoop (db : BD) (prof : Nat) :
    Nat → List (Nat × Nat × Option String) → List Nat → List Conexao
  | 0, _, _ => []
  | _ + 1, [], _ => []
  | fuel + 1, (atual, nivel, _) :: resto, visitados =>
    if atual ∈ visitados ∨ prof ≤ nivel then
      conexoesLoop db prof fuel resto visitados
    else
      let visitados' := atual :: visitados
      let passos := passoFigura db prof atual nivel visitados'
      passos.1 ++ conexoesLoop db prof fuel (resto ++ passos.2) visitados'

/-- An upper bound on the iterations of the traversal loop: at most
`|figuras| + 1` entries are ever processed (each processing marks a new
visited id drawn from the start id and the figure ids), each processing
enqueues at most `2·|contratos|` entries, and every iteration pops one
entry. -/
def combustivel (db : BD) : Nat :=
  (db.figuras.length + 1) * (2 * db.contratos.length + 1) + 2

/-- `detetar_conexoes(figura_id, profundidade)`. -/
def detetarConexoes (db : BD) (figuraId : Nat) (profundidade : Nat) :
    List Conexao :=
  conexoesLoop db profundidade (combustivel db) [(figuraId, 0, none)] []

-- ==================== Test fixtures ====================

/-- A goods/services contract valued exactly 74 999. -/
def contrato74999 : Contrato where
  id_contrato := "CT-74999"
  valor := some 74999
  tipo_contrato := some "aquisição de serviços"

/-- A goods/services contract valued 50 000. -/
def contrato50000 : Contrato where
  id_contrato := "CT-50000"
  valor := some 50000
  tipo_contrato := some "aquisição de serviços"

/-- A contract whose date string does not parse as `%Y-%m-%d`. -/
def contratoDataInvalida : Contrato where
  id_contrato := "CT-MA"
  data_contrato := some "data-invalida"

/-- A contract dict carrying a non-numeric value. -/
def contratoValorTexto : ContratoDin where
  id_contrato := "CT-VT"
  valor := some (.str "abc")

/-- End-to-end conflict fixture (§8 of the spec): the contract awarded to
`Construtora Silva & Filhos Lda` by `Câmara Municipal de Lisboa`. -/
def contratoLisboa : Contrato where
  id_contrato := "CT1"
  adjudicante := some "Câmara Municipal de Lisboa"
  adjudicataria := some "Construtora Silva & Filhos Lda"
  valor := some 250000

/-- End-to-end conflict fixture: the person João Silva. -/
def pessoaJoao : Pessoa where
  id := 1
  nome := "João Silva"

/-- End-to-end conflict fixture: João Silva's active position. -/
def cargoJoao : CargoPolitico where
  pessoa_id := 1
  cargo := "Presidente da Câmara"
  entidade := "Câmara Municipal de Lisboa"

/-- Variant of `cargoJoao` with an empty holding-entity string. -/
def cargoJoaoSemEntidade : CargoPolitico where
  pessoa_id := 1
  cargo := "Presidente da Câmara"
  entidade := ""

/-- End-to-end conflict fixture: João Silva's active ownership association. -/
def associacaoJoao : Associacao where
  pessoa_id := 1
  empresa_nome := "Construtora Silva & Filhos Lda"
  tipo_relacao := "dono"
  percentagem_participacao := 60

/-- The repository state of the end-to-end self-dealing scenario. -/
def dbSilva : BD where
  contratos := [contratoLisboa]
  pessoas := [pessoaJoao]
  cargos := [cargoJoao]
  associacoes := [associacaoJoao]

/-- `dbSilva` with the position's holding entity left empty. -/
def dbSilvaSemEntidade : BD where
  contratos := [contratoLisboa]
  pessoas := [pessoaJoao]
  cargos := [cargoJoaoSemEntidade]
  associacoes := [associacaoJoao]

/-- Connection fixture: a contract between two registered figures. -/
def contratoConexao : Contrato where
  id_contrato := "K1"
  adjudicante := some "Câmara de Testes"
  adjudicataria := some "Empresa Modelo"

/-- Connection fixture: the registered awarder figure. -/
def figuraCamara : Figura where
  id := 1
  nome := "Câmara de Testes"

/-- Connection fixture: the registered awardee figure. -/
def figuraEmpresa : Figura where
  id := 2
  nome := "Empresa Modelo"

/-- The repository state of the connection fixture. -/
def dbConexoes : BD where
  contratos := [contratoConexao]
  figuras := [figuraCamara, figuraEmpresa]

/-- Person-search fixture: Maria Santos's association. -/
def associacaoMaria : Associacao where
  pessoa_id := 1
  empresa_nome := "Empresa Teste X"
  tipo_relacao := "socio"

/-- Person-search fixture: a repository holding one person with one
association. -/
def dbMaria : BD where
  pessoas := [{ id := 1, nome := "Maria Santos" }]
  associacoes := [associacaoMaria]

/-- A well-dated contract used in witnesses. -/
def contratoDatado : Contrato where
  id_contrato := "CT-D"
  data_contrato := some "2024-01-05"

/-- The connection produced by the depth-1 fixture. -/
def conexaoEsperada : Conexao where
  origem_id := 1
  destino_id := 2
  destino_nome := "Empresa Modelo"
  tipo_conexao := "adjudicataria"
  nivel := 1
  contrato_id := "K1"
  contrato_descricao := none
  contrato_valor := none
  contrato_data := none

/-- A contract's `data_contrato` is absent/empty, or parses as `%Y-%m-%d`
(the well-formedness hypothesis of the amended no-throw property). -/
def dataOkB (c : Contrato) : Bool :=
  match dTruthy c.data_contrato with
  | none => true
  | some s => (parseDate s).isSome

-- ==================== Theorems ====================

open LimitesLegais in
/-- C1 counterexample: for the goods/services category the claimed strict
chain fails at its second link — the prior-consultation ceiling (214 000) is
not below the EU ceiling (140 000). -/
theorem claimC1_counterexample :
    ¬ (AJUSTE_DIRETO_BENS_SERVICOS < CONSULTA_PREVIA_BENS_SERVICOS ∧
       CONSULTA_PREVIA_BENS_SERVICOS < UE_BENS_SERVICOS) := by
  decide

open LimitesLegais in
/-- C1 (amended): the direct-award ceiling is below the prior-consultation
ceiling for both categories; the full chain through the EU ceiling holds for
works only, while the goods/services EU ceiling lies strictly between that
category's direct-award and prior-consultation ceilings. The public-tender
floors equal the prior-consultation ceilings. -/
theorem claimC1_theorem :
    AJUSTE_DIRETO_BENS_SERVICOS < CONSULTA_PREVIA_BENS_SERVICOS ∧
    AJUSTE_DIRETO_OBRAS < CONSULTA_PREVIA_OBRAS ∧
    CONSULTA_PREVIA_OBRAS < UE_OBRAS ∧
    AJUSTE_DIRETO_BENS_SERVICOS < UE_BENS_SERVICOS ∧
    UE_BENS_SERVICOS < CONSULTA_PREVIA_BENS_SERVICOS ∧
    CONCURSO_PUBLICO_BENS_SERVICOS = CONSULTA_PREVIA_BENS_SERVICOS ∧
    CONCURSO_PUBLICO_OBRAS = CONSULTA_PREVIA_OBRAS := by
  decide

/-- Evaluation of `analisar_contratos` under the default configuration once
the two fallible rules have been evaluated. -/
theorem analisarContratos_default_eq (contratos : List Contrato)
    (l2 l4 : List Padrao)
    (h2 : detectarFracionamento defaultConfig contratos = .ok l2)
    (h4 : detectarConcentracaoTemporal defaultConfig contratos = .ok l4) :
    analisarContratos defaultConfig contratos =
      .ok (detectarValoresSuspeitos defaultConfig contratos ++ l2 ++
           detectarContratosRepetidos defaultConfig contratos ++ l4 ++
           detectarValoresRedondos defaultConfig contratos ++
           detectarProcedimentoInadequado contratos ++
           detectarVesperasFeriados contratos) := by
  have e2 : defaultConfig.detectar_fracionamento = true := rfl
  have e4 : defaultConfig.detectar_concentracao_temporal = true := rfl
  have e1 : defaultConfig.detectar_valores_suspeitos = true := rfl
  have e3 : defaultConfig.detectar_contratos_repetidos = true := rfl
  have e5 : defaultConfig.detectar_valores_redondos = true := rfl
  have e6 : defaultConfig.detectar_procedimento_inadequado = true := rfl
  have e7 : defaultConfig.detectar_vesperas_feriados = true := rfl
  simp only [analisarContratos, e1, e2, e3, e4, e5, e6, e7, if_true, h2, h4]

/-- Evaluation of `analisar_contratos` under the default configuration when
the temporal-concentration rule raises. -/
theorem analisarContratos_default_error (contratos : List Contrato)
    (h2 : ∃ l2, detectarFracionamento defaultConfig contratos = .ok l2)
    (h4 : detectarConcentracaoTemporal defaultConfig contratos = .error ()) :
    analisarContratos defaultConfig contratos = .error () := by
  obtain ⟨l2, h2⟩ := h2
  have e2 : defaultConfig.detectar_fracionamento = true := rfl
  have e4 : defaultConfig.detectar_concentracao_temporal = true := rfl
  simp only [analisarContratos, e2, e4, if_true, h2, h4]

/-- C2 counterexample, both malformed dimensions of the claim: a single
contract whose date string is malformed makes `analisar_contratos` (all
rules enabled) raise — the unguarded `strptime` in the
temporal-concentration rule propagates a `ValueError` — and a contract
whose value is a string makes rule 1, the first rule the analysis runs,
raise a `TypeError` at `valor <= 0`; in neither case is the contract
silently skipped. -/
theorem claimC2_counterexample :
    analisarContratos defaultConfig [contratoDataInvalida] = .error () ∧
    detectarValoresSuspeitosDin defaultConfig [contratoValorTexto] =
      .error () := by
  refine ⟨analisarContratos_default_error _ ⟨[], ?_⟩ ?_, rfl⟩
  · with_unfolding_all rfl
  · with_unfolding_all rfl

/-- C3 counterexample: the 74 999 goods/services contract yields three
findings under the default configuration, not the claimed two. -/
theorem claimC3_counterexample :
    (analisarContratos defaultConfig [contrato74999]).map List.length =
      Except.ok 3 ∧
    (analisarContratos defaultConfig [contrato74999]).map List.length ≠
      Except.ok 2 := by
  have hA : analisarContratos defaultConfig [contrato74999] =
      .ok (detectarValoresSuspeitos defaultConfig [contrato74999] ++ [] ++
           detectarContratosRepetidos defaultConfig [contrato74999] ++ [] ++
           detectarValoresRedondos defaultConfig [contrato74999] ++
           detectarProcedimentoInadequado [contrato74999] ++
           detectarVesperasFeriados [contrato74999]) :=
    analisarContratos_default_eq _ [] [] (by with_unfolding_all rfl)
      (by with_unfolding_all rfl)
  have hr1 : (detectarValoresSuspeitos defaultConfig [contrato74999]).length
      = 1 := by with_unfolding_all rfl
  have hr3 : detectarContratosRepetidos defaultConfig [contrato74999] = [] :=
    by with_unfolding_all rfl
  have hr5 : (detectarValoresRedondos defaultConfig [contrato74999]).length
      = 2 := by with_unfolding_all rfl
  have hr6 : detectarProcedimentoInadequado [contrato74999] = [] := by
    with_unfolding_all rfl
  have hr7 : detectarVesperasFeriados [contrato74999] = [] := by
    with_unfolding_all rfl
  have hL : (detectarValoresSuspeitos defaultConfig [contrato74999] ++ [] ++
      detectarContratosRepetidos defaultConfig [contrato74999] ++ [] ++
      detectarValoresRedondos defaultConfig [contrato74999] ++
      detectarProcedimentoInadequado [contrato74999] ++
      detectarVesperasFeriados [contrato74999]).length = 3 := by
    simp [hr1, hr3, hr5, hr6, hr7]
  rw [hA]
  refine ⟨by simp only [Except.map, hL], ?_⟩
  intro h
  simp only [Except.map, hL] at h
  exact absurd (Except.ok.inj h) (by decide)

/-- C3 (amended): the single 74 999 goods/services contract produces exactly
three findings under the default configuration: one from rule 1
(near-threshold value) and two from rule 5 (exact membership in the
suspicious-value list, and an engineered shortfall of 1 below 75 000). -/
theorem claimC3_theorem :
    (analisarContratos defaultConfig [contrato74999]).map
        (fun l => l.map Padrao.tipo) =
      Except.ok ["valor_suspeito_limite", "valor_exato_suspeito",
                 "valor_calculado_suspeito"] := by
  have hA : analisarContratos defaultConfig [contrato74999] =
      .ok (detectarValoresSuspeitos defaultConfig [contrato74999] ++ [] ++
           detectarContratosRepetidos defaultConfig [contrato74999] ++ [] ++
           detectarValoresRedondos defaultConfig [contrato74999] ++
           detectarProcedimentoInadequado [contrato74999] ++
           detectarVesperasFeriados [contrato74999]) :=
    analisarContratos_default_eq _ [] [] (by with_unfolding_all rfl)
      (by with_unfolding_all rfl)
  have hr1 : (detectarValoresSuspeitos defaultConfig [contrato74999]).map
      Padrao.tipo = ["valor_suspeito_limite"] := by with_unfolding_all rfl
  have hr3 : detectarContratosRepetidos defaultConfig [contrato74999] = [] :=
    by with_unfolding_all rfl
  have hr5 : (detectarValoresRedondos defaultConfig [contrato74999]).map
      Padrao.tipo = ["valor_exato_suspeito", "valor_calculado_suspeito"] := by
    with_unfolding_all rfl
  have hr6 : detectarProcedimentoInadequado [contrato74999] = [] := by
    with_unfolding_all rfl
  have hr7 : detectarVesperasFeriados [contrato74999] = [] := by
    with_unfolding_all rfl
  have hM : (detectarValoresSuspeitos defaultConfig [contrato74999] ++ [] ++
      detectarContratosRepetidos defaultConfig [contrato74999] ++ [] ++
      detectarValoresRedondos defaultConfig [contrato74999] ++
      detectarProcedimentoInadequado [contrato74999] ++
      detectarVesperasFeriados [contrato74999]).map Padrao.tipo =
      ["valor_suspeito_limite", "valor_exato_suspeito",
       "valor_calculado_suspeito"] := by
    simp [hr1, hr3, hr5, hr6, hr7]
  rw [hA]
  simp only [Except.map, hM]

/-- C5: in the end-to-end self-dealing scenario (João Silva, president at the
awarding Câmara Municipal de Lisboa, owner of the awarded company),
`detectar_conflitos_interesse` returns exactly one conflict and its severity
is `critica` — the final link of the sequential medium → high → critical
override chain fires because the holding-entity name is a substring of the
awarder name. -/
theorem claimC5_theorem :
    ((detectarConflitosInteresse dbSilva none).2).map ConflitoDet.gravidade =
      ["critica"] := by
  with_unfolding_all rfl

/-- C6: under rule 1 with the default configuration, the 74 999
goods/services contract yields one finding of severity `alta` (shortfall 1 is
within the 1 % high-suspicion margin of the 75 000 ceiling), while the 50 000
contract — below 95 % of the ceiling — yields none. -/
theorem claimC6_theorem :
    (detectarValoresSuspeitos defaultConfig [contrato74999]).map
        Padrao.gravidade = ["alta"] ∧
    detectarValoresSuspeitos defaultConfig [contrato50000] = [] := by
  constructor
  · with_unfolding_all rfl
  · with_unfolding_all rfl

/-- C9: `analisar_contratos` leaves the contract store untouched — the rules
only read fields and build fresh grouping/sorting structures — and its
findings are the deterministic function `analisarContratos` of the input list
and the configuration alone. -/
theorem claimC9_theorem (cfg : Config) (contratos : List Contrato) :
    (analisarContratosSt cfg contratos).1 = contratos ∧
    (analisarContratosSt cfg contratos).2 = analisarContratos cfg contratos :=
  ⟨rfl, rfl⟩

/-- C9 witness: the frame property at the default configuration and an
explicit contract list. -/
theorem claimC9_witness :
    (analisarContratosSt defaultConfig [contrato74999]).1 = [contrato74999] ∧
    (analisarContratosSt defaultConfig [contrato74999]).2 =
      analisarContratos defaultConfig [contrato74999] :=
  claimC9_theorem defaultConfig [contrato74999]

-- ==================== C4: idempotent conflict persistence ====================

/-- The pair check distributes over table concatenation. -/
theorem temParConflito_append (t1 t2 : List ConflitoRow) (c : ConflitoDet) :
    temParConflito (t1 ++ t2) c =
      (temParConflito t1 c || temParConflito t2 c) := by
  simp [temParConflito, List.any_append]

/-- After registering a conflict, its pair is present. -/
theorem temParConflito_registar_self (t : List ConflitoRow) (c : ConflitoDet) :
    temParConflito (registarConflito t c) c = true := by
  unfold registarConflito
  by_cases h : temParConflito t c = true
  · rw [if_pos h]; exact h
  · rw [if_neg h, temParConflito_append]
    have hrow : temParConflito [paraRow c] c = true := by
      simp [temParConflito, paraRow]
    rw [hrow, Bool.or_true]

/-- Registering preserves the presence of any pair. -/
theorem temParConflito_registar_mono (t : List ConflitoRow)
    (c c' : ConflitoDet) (h : temParConflito t c = true) :
    temParConflito (registarConflito t c') c = true := by
  unfold registarConflito
  by_cases h' : temParConflito t c' = true
  · rw [if_pos h']; exact h
  · rw [if_neg h', temParConflito_append, h, Bool.true_or]

/-- Folding registrations preserves the presence of any pair. -/
theorem temParConflito_foldl_mono (L : List ConflitoDet)
    (t : List ConflitoRow) (c : ConflitoDet) (h : temParConflito t c = true) :
    temParConflito (L.foldl registarConflito t) c = true := by
  induction L generalizing t with
  | nil => exact h
  | cons x xs ih =>
    exact ih (registarConflito t x) (temParConflito_registar_mono t c x h)

/-- After folding registrations, every registered conflict's pair is
present. -/
theorem temParConflito_foldl_mem (L : List ConflitoDet)
    (t : List ConflitoRow) (c : ConflitoDet) (hc : c ∈ L) :
    temParConflito (L.foldl registarConflito t) c = true := by
  induction L generalizing t with
  | nil => exact absurd hc (List.not_mem_nil c)
  | cons x xs ih =>
    rcases List.mem_cons.mp hc with rfl | hmem
    · exact temParConflito_foldl_mono xs (registarConflito t c) c
        (temParConflito_registar_self t c)
    · exact ih (registarConflito t x) hmem

/-- Folding registrations over conflicts whose pairs are all present leaves
the table unchanged. -/
theorem foldl_registar_noop (L : List ConflitoDet) (t : List ConflitoRow)
    (h : ∀ c ∈ L, temParConflito t c = true) :
    L.foldl registarConflito t = t := by
  induction L with
  | nil => rfl
  | cons x xs ih =>
    have hx : registarConflito t x = t := by
      unfold registarConflito
      simp [h x (List.mem_cons_self x xs)]
    rw [List.foldl_cons, hx]
    exact ih (fun c hc => h c (List.mem_cons_of_mem x hc))

/-- The detection scan reads only the non-`conflitos` tables. -/
theorem conflitosDetectados_conflitos_update (db : BD)
    (t : List ConflitoRow) (pid : Option Nat) :
    conflitosDetectados { db with conflitos := t } pid =
      conflitosDetectados db pid := by
  cases db
  rfl

/-- C4: running `detectar_conflitos_interesse` twice in succession over an
unchanged repository leaves the persisted conflict table exactly as after
the first run — every pair written by the first run is found by the
lookup-before-insert check of the second. -/
theorem claimC4_theorem (db : BD) (pid : Option Nat) :
    (detectarConflitosInteresse
        (detectarConflitosInteresse db pid).1 pid).1.conflitos =
      (detectarConflitosInteresse db pid).1.conflitos := by
  show (conflitosDetectados { db with
      conflitos := (conflitosDetectados db pid).foldl registarConflito
        db.conflitos } pid).foldl registarConflito
      ((conflitosDetectados db pid).foldl registarConflito db.conflitos) =
    (conflitosDetectados db pid).foldl registarConflito db.conflitos
  rw [conflitosDetectados_conflitos_update]
  exact foldl_registar_noop _ _
    (fun c hc => temParConflito_foldl_mem _ _ _ hc)

/-- C4 witness: the idempotence theorem applied to the end-to-end fixture. -/
theorem claimC4_witness :
    (detectarConflitosInteresse
        (detectarConflitosInteresse dbSilva none).1 none).1.conflitos =
      (detectarConflitosInteresse dbSilva none).1.conflitos :=
  claimC4_theorem dbSilva none

-- ==================== C7: no self-connection at depth 1 ====================

/-- The traversal loop on an empty queue yields no connections. -/
theorem conexoesLoop_vazia (db : BD) (prof f : Nat) (vis : List Nat) :
    conexoesLoop db prof f [] vis = [] := by
  cases f <;> rfl

/-- At depth 1 the traversal processes only the start figure: the start is
marked visited, no entry is enqueued, and the loop ends. -/
theorem detetarConexoes_profundidade_um (db : BD) (figuraId : Nat) :
    detetarConexoes db figuraId 1 =
      (passoFigura db 1 figuraId 0 [figuraId]).1 := by
  have h : detetarConexoes db figuraId 1 =
      (passoFigura db 1 figuraId 0 [figuraId]).1 ++ [] := rfl
  rw [h, List.append_nil]

/-- Every connection emitted while processing one figure has an unvisited
destination distinct from the processed figure. -/
theorem passoFigura_destino (db : BD) (prof atual nivel : Nat)
    (vis : List Nat) (conn : Conexao)
    (h : conn ∈ (passoFigura db prof atual nivel vis).1) :
    conn.destino_id ∉ vis ∧ conn.destino_id ≠ atual := by
  simp only [passoFigura] at h
  obtain ⟨par, hpar, rfl⟩ := List.mem_map.mp h
  obtain ⟨ct, -, hmem⟩ := List.mem_flatMap.mp hpar
  obtain ⟨ent, -, heq⟩ := List.mem_filterMap.mp hmem
  split at heq
  · exact absurd heq (by simp)
  · split at heq
    · rename_i eid hr hg
      cases Option.some.inj heq
      exact ⟨hg.2.2, hg.2.1⟩
    · exact absurd heq (by simp)

/-- C7: `detetar_conexoes` from any start figure at depth 1 never returns a
connection whose destination id equals the start id — the start is marked
visited before any emission, and emissions require an unvisited resolved id
different from the current figure. -/
theorem claimC7_theorem (db : BD) (figuraId : Nat) (conn : Conexao)
    (h : conn ∈ detetarConexoes db figuraId 1) :
    conn.destino_id ≠ figuraId := by
  rw [detetarConexoes_profundidade_um] at h
  have := passoFigura_destino db 1 figuraId 0 [figuraId] conn h
  intro he
  exact this.1 (he ▸ List.mem_singleton.mpr rfl)

/-- C7 witness: on the two-figure fixture the depth-1 traversal emits a
connection, and the theorem applies to it. -/
theorem claimC7_witness :
    conexaoEsperada ∈ detetarConexoes dbConexoes 1 1 ∧
    conexaoEsperada.destino_id ≠ 1 := by
  have hm : conexaoEsperada ∈ detetarConexoes dbConexoes 1 1 := by
    rw [show detetarConexoes dbConexoes 1 1 = [conexaoEsperada] from by
      with_unfolding_all rfl]
    exact List.mem_singleton.mpr rfl
  exact ⟨hm, claimC7_theorem dbConexoes 1 conexaoEsperada hm⟩

-- ==================== C8: missing person yields the empty result ==========

/-- C8 counterexample: the query `%` is a case-insensitive substring of no
stored name, yet as the SQLite pattern `LIKE '%%%'` it matches every
person, so the search resolves Maria Santos and returns her associated
company — a non-empty result where the claim, read as substring matching,
asserts the empty one. -/
theorem claimC8_counterexample :
    isInfixB (pyLowerStr "%").data (pyLowerStr "Maria Santos").data = false ∧
    (pesquisarContratosPorPessoa dbMaria "%").empresas_associadas =
      ["Empresa Teste X"] ∧
    pesquisarContratosPorPessoa dbMaria "%" ≠
      ({ pessoa := "%" } : ResultadoPesquisa) := by
  have he : (pesquisarContratosPorPessoa dbMaria "%").empresas_associadas =
      ["Empresa Teste X"] := by with_unfolding_all rfl
  refine ⟨by decide, he, fun h => ?_⟩
  have h2 := congrArg ResultadoPesquisa.empresas_associadas h
  rw [he] at h2
  exact absurd h2 (by decide)

/-- C8 (amended): when the code's matcher — SQLite `LIKE '%query%'`,
ASCII-case-insensitive with `%` and `_` active as wildcards — matches no
stored person name, `pesquisar_contratos_por_pessoa` returns the freshly
initialised empty result — empty direct, company and associate lists, zero
totals — rather than raising. For queries without LIKE metacharacters this
coincides with case-insensitive substring matching, but not in general (see
the counterexample). -/
theorem claimC8_theorem (db : BD) (nome : String)
    (h : ∀ p ∈ db.pessoas, sqlLikeContains nome p.nome = false) :
    pesquisarContratosPorPessoa db nome = { pessoa := nome } := by
  have hfilter : db.pessoas.filter (fun p => sqlLikeContains nome p.nome)
      = [] :=
    List.filter_eq_nil_iff.mpr (fun p hp => by simp [h p hp])
  have hp : pesquisarPessoa db nome = [] := by
    unfold pesquisarPessoa
    rw [hfilter, List.mergeSort_nil]
  unfold pesquisarContratosPorPessoa
  rw [hp]

/-- C8 witness: a query matching nobody in a one-person repository returns
the empty result. -/
theorem claimC8_witness :
    (∀ p ∈ dbMaria.pessoas, sqlLikeContains "xyz" p.nome = false) ∧
    pesquisarContratosPorPessoa dbMaria "xyz" = { pessoa := "xyz" } :=
  ⟨by decide, claimC8_theorem dbMaria "xyz" (by decide)⟩

-- ==================== C10: empty holding entity forces `critica` ==========

/-- Elements of the first-occurrence deduplication come from the original
list. -/
theorem mem_dedupPrimeiros [BEq α] (vistos l : List α) (x : α)
    (h : x ∈ dedupPrimeiros vistos l) : x ∈ l := by
  induction l generalizing vistos with
  | nil => simp [dedupPrimeiros] at h
  | cons y ys ih =>
    unfold dedupPrimeiros at h
    by_cases hc : vistos.contains y = true
    · rw [if_pos hc] at h
      exact List.mem_cons_of_mem y (ih _ h)
    · rw [if_neg hc] at h
      rcases List.mem_cons.mp h with rfl | hm
      · exact List.mem_cons_self x ys
      · exact List.mem_cons_of_mem y (ih _ hm)

/-- Every person-row of the conflict scan carries the `cargo`/`entidade` of
one of that person's active positions. -/
theorem pessoasPoliticas_spec (db : BD) (pid : Option Nat)
    (pp : PessoaPolitica) (h : pp ∈ pessoasPoliticas db pid) :
    ∃ cg ∈ db.cargos, cg.ativo = true ∧ cg.pessoa_id = pp.id ∧
      cg.entidade = pp.entidade := by
  simp only [pessoasPoliticas] at h
  have h' := mem_dedupPrimeiros _ _ _ h
  have hpares : pp ∈ db.pessoas.flatMap (fun p =>
      (db.cargos.filter (fun cg => cg.pessoa_id == p.id && cg.ativo)).map
        (fun cg => ({ id := p.id, nome := p.nome, cargo := cg.cargo,
                      entidade := cg.entidade } : PessoaPolitica))) := by
    rcases pid with - | pid
    · exact h'
    · dsimp only at h'
      by_cases h0 : (pid == 0) = true
      · rw [if_pos h0] at h'; exact h'
      · rw [if_neg h0] at h'; exact (List.mem_filter.mp h').1
  obtain ⟨p, -, hmap⟩ := List.mem_flatMap.mp hpares
  obtain ⟨cg, hcgf, hcg⟩ := List.mem_map.mp hmap
  obtain ⟨hcgmem, hcond⟩ := List.mem_filter.mp hcgf
  rw [Bool.and_eq_true] at hcond
  refine ⟨cg, hcgmem, hcond.2, ?_, ?_⟩
  · rw [← hcg]
    show cg.pessoa_id = p.id
    exact beq_iff_eq.mp hcond.1
  · rw [← hcg]

/-- Every conflict of one person-row is `mkConflito` of an association and a
contract. -/
theorem conflitosDePessoa_mk (db : BD) (pp : PessoaPolitica)
    (c : ConflitoDet) (h : c ∈ conflitosDePessoa db pp) :
    ∃ a ct, c = mkConflito pp a ct := by
  unfold conflitosDePessoa at h
  obtain ⟨a, -, h2⟩ := List.mem_flatMap.mp h
  by_cases ha : a.ativo = true
  · rw [if_pos ha] at h2
    obtain ⟨ct, -, heq⟩ := List.mem_filterMap.mp h2
    by_cases hp : ehEntidadePublica ct = true
    · rw [if_pos hp] at heq
      exact ⟨a, ct, (Option.some.inj heq).symm⟩
    · rw [if_neg hp] at heq
      exact absurd heq (by simp)
  · rw [if_neg ha] at h2
    exact absurd h2 (List.not_mem_nil c)

/-- The empty needle is a substring of everything (Python `'' in s`). -/
theorem isInfixB_nil (l : List Char) : isInfixB [] l = true := by
  cases l <;> simp [isInfixB, isPrefixB]

/-- With an empty holding entity the severity chain always ends at
`critica`. -/
theorem gravidadeConflito_entidade_vazia (pp : PessoaPolitica) (adj : String)
    (h : pp.entidade = "") : gravidadeConflito pp adj = "critica" := by
  unfold gravidadeConflito
  rw [h]
  have hsub : pySubstrB (pyLowerStr "") adj = true := isInfixB_nil adj.data
  rw [hsub]
  rfl

/-- C10: if every active political position of a person has an empty
holding-entity string, then every conflict the detector reports for that
person has severity `critica` — the empty string is a substring of every
awarder name, so the final override of the severity chain always fires. -/
theorem claimC10_theorem (db : BD) (pid : Option Nat) (alvo : Nat)
    (h : ∀ cg ∈ db.cargos, cg.pessoa_id = alvo → cg.ativo = true →
      cg.entidade = "") :
    ∀ c ∈ (detectarConflitosInteresse db pid).2, c.pessoa_id = alvo →
      c.gravidade = "critica" := by
  intro c hc hid
  have hc' : c ∈ conflitosDetectados db pid := hc
  unfold conflitosDetectados at hc'
  obtain ⟨pp, hpp, hcp⟩ := List.mem_flatMap.mp hc'
  obtain ⟨a, ct, rfl⟩ := conflitosDePessoa_mk db pp c hcp
  obtain ⟨cg, hcgmem, hativo, hcgid, hent⟩ :=
    pessoasPoliticas_spec db pid pp hpp
  have hppid : pp.id = alvo := hid
  have hvazia : pp.entidade = "" := by
    rw [← hent]
    exact h cg hcgmem (hcgid.trans hppid) hativo
  exact gravidadeConflito_entidade_vazia pp _ hvazia

/-- C10 witness: in the fixture whose position has an empty holding entity,
the hypothesis holds and every conflict reported for the person is
`critica`; the run does report one such conflict. -/
theorem claimC10_witness :
    (∀ cg ∈ dbSilvaSemEntidade.cargos, cg.pessoa_id = 1 → cg.ativo = true →
      cg.entidade = "") ∧
    (∀ c ∈ (detectarConflitosInteresse dbSilvaSemEntidade none).2,
      c.pessoa_id = 1 → c.gravidade = "critica") ∧
    ((detectarConflitosInteresse dbSilvaSemEntidade none).2).length = 1 := by
  refine ⟨by decide, claimC10_theorem dbSilvaSemEntidade none 1 (by decide),
    ?_⟩
  with_unfolding_all rfl

-- ==================== C2 (amended): no-throw conditions ====================

/-- A truthy optional string is returned by `getD ""`. -/
theorem dTruthy_getD (o : Option String) (s : String)
    (h : dTruthy o = some s) : o.getD "" = s := by
  cases o with
  | none => simp [dTruthy] at h
  | some t =>
    simp only [dTruthy] at h
    by_cases ht : t = ""
    · rw [if_pos ht] at h
      exact absurd h (by simp)
    · rw [if_neg ht] at h
      cases Option.some.inj h
      rfl

/-- The rule-2 window comprehension succeeds when every date in the group is
absent/empty or well-formed. -/
theorem janelaFrac_ok (fim : Int) (l : List Contrato)
    (h : ∀ c ∈ l, dataOkB c = true) : ∃ r, janelaFrac fim l = .ok r := by
  induction l with
  | nil => exact ⟨[], rfl⟩
  | cons c resto ih =>
    obtain ⟨r, hrec⟩ := ih (fun x hx => h x (List.mem_cons_of_mem c hx))
    have hc := h c (List.mem_cons_self c resto)
    unfold dataOkB at hc
    cases hd : dTruthy c.data_contrato with
    | none =>
      refine ⟨r, ?_⟩
      simp only [janelaFrac, hd]
      exact hrec
    | some s =>
      rw [hd] at hc
      obtain ⟨d, hpd⟩ := Option.isSome_iff_exists.mp hc
      by_cases hle : diasDesdeEpoca d ≤ fim
      · exact ⟨c :: r, by simp only [janelaFrac, hd, hpd, hrec, if_pos hle]⟩
      · exact ⟨r, by simp only [janelaFrac, hd, hpd, hrec, if_neg hle]⟩

/-- The rule-2 window scan succeeds on a group of absent/empty or
well-formed dates (the minimum-contracts parameter must be positive, as in
the default configuration, for the `contratos_janela[0]` access to be
guarded by the length test). -/
theorem fracLoop_ok (cfg : Config)
    (hmin : 0 < cfg.min_contratos_fracionamento)
    (chave : String × String × String × String) (l : List Contrato)
    (h : ∀ c ∈ l, dataOkB c = true) : ∃ r, fracLoop cfg chave l = .ok r := by
  induction l with
  | nil => exact ⟨none, rfl⟩
  | cons c resto ih =>
    obtain ⟨r, hrec⟩ := ih (fun x hx => h x (List.mem_cons_of_mem c hx))
    have hc := h c (List.mem_cons_self c resto)
    unfold dataOkB at hc
    cases hd : dTruthy c.data_contrato with
    | none =>
      refine ⟨r, ?_⟩
      simp only [fracLoop, hd]
      exact hrec
    | some s =>
      rw [hd] at hc
      obtain ⟨d, hpd⟩ := Option.isSome_iff_exists.mp hc
      obtain ⟨janela, hj⟩ := janelaFrac_ok
        (diasDesdeEpoca d + cfg.janela_fracionamento_dias) (c :: resto) h
      by_cases hlen : cfg.min_contratos_fracionamento ≤ janela.length
      · cases janela with
        | nil =>
          exfalso
          simp only [List.length_nil, Nat.le_zero] at hlen
          omega
        | cons j0 js =>
          by_cases hlim : LimitesLegais.get_limite_ajuste_direto (cTipo j0) <
              ((j0 :: js).map cValor).sum
          · exact ⟨_, by
              simp only [fracLoop, hd, hpd, hj, if_pos hlen, if_pos hlim]
              rfl⟩
          · refine ⟨r, ?_⟩
            simp only [fracLoop, hd, hpd, hj, if_pos hlen, if_neg hlim]
            exact hrec
      · refine ⟨r, ?_⟩
        simp only [fracLoop, hd, hpd, hj, if_neg hlen]
        exact hrec

/-- Every member of a group produced by `agruparPor` is an input element. -/
theorem agruparPor_mem [BEq κ] (f : α → κ) (l : List α) (par : κ × List α)
    (hpar : par ∈ agruparPor f l) (x : α) (hx : x ∈ par.2) : x ∈ l := by
  unfold agruparPor at hpar
  obtain ⟨k, -, hk⟩ := List.mem_map.mp hpar
  rw [← hk] at hx
  exact (List.mem_filter.mp hx).1

/-- The rule-2 group loop succeeds when every grouped contract has an
absent/empty or well-formed date. -/
theorem fracGrupos_ok (cfg : Config)
    (hmin : 0 < cfg.min_contratos_fracionamento)
    (grupos : List ((String × String × String × String) × List Contrato))
    (h : ∀ par ∈ grupos, ∀ c ∈ par.2, dataOkB c = true) :
    ∃ r, fracGrupos cfg grupos = .ok r := by
  induction grupos with
  | nil => exact ⟨[], rfl⟩
  | cons par resto ih =>
    obtain ⟨chave, grupo⟩ := par
    obtain ⟨acc, hacc⟩ :=
      ih (fun p hp c hc => h p (List.mem_cons_of_mem _ hp) c hc)
    by_cases hlen : grupo.length < cfg.min_contratos_fracionamento
    · refine ⟨acc, ?_⟩
      simp only [fracGrupos, if_pos hlen]
      exact hacc
    · have hg : ∀ c ∈ grupo.mergeSort (fun a b =>
          strLeB (a.data_contrato.getD "") (b.data_contrato.getD "")),
          dataOkB c = true := fun c hc =>
        h (chave, grupo) (List.mem_cons_self _ _) c (List.mem_mergeSort.mp hc)
      obtain ⟨r, hr⟩ := fracLoop_ok cfg hmin chave _ hg
      exact ⟨r.toList ++ acc,
        by simp only [fracGrupos, if_neg hlen, hr, hacc]⟩

/-- The fractioning rule succeeds when every date is absent/empty or
well-formed. -/
theorem detectarFracionamento_ok (cfg : Config)
    (hmin : 0 < cfg.min_contratos_fracionamento) (contratos : List Contrato)
    (h : ∀ c ∈ contratos, dataOkB c = true) :
    ∃ r, detectarFracionamento cfg contratos = .ok r := by
  apply fracGrupos_ok cfg hmin
  intro par hpar c hc
  exact h c (agruparPor_mem fracChave contratos par hpar c hc)

/-- The rule-4 window comprehension succeeds when every date in the suffix
parses. -/
theorem janelaConc_ok (fim : Int) (l : List Contrato)
    (h : ∀ c ∈ l, (parseDate (c.data_contrato.getD "")).isSome = true) :
    ∃ r, janelaConc fim l = .ok r := by
  induction l with
  | nil => exact ⟨[], rfl⟩
  | cons c resto ih =>
    obtain ⟨r, hrec⟩ := ih (fun x hx => h x (List.mem_cons_of_mem c hx))
    obtain ⟨d, hpd⟩ :=
      Option.isSome_iff_exists.mp (h c (List.mem_cons_self c resto))
    by_cases hle : diasDesdeEpoca d ≤ fim
    · exact ⟨c :: r, by simp only [janelaConc, hpd, hrec, if_pos hle]⟩
    · exact ⟨r, by simp only [janelaConc, hpd, hrec, if_neg hle]⟩

/-- The rule-4 scan succeeds when every date in the (pre-filtered) list
parses. -/
theorem concLoop_ok (cfg : Config) (l : List Contrato)
    (h : ∀ c ∈ l, (parseDate (c.data_contrato.getD "")).isSome = true) :
    ∃ r, concLoop cfg l = .ok r := by
  induction l with
  | nil => exact ⟨none, rfl⟩
  | cons c resto ih =>
    obtain ⟨r, hrec⟩ := ih (fun x hx => h x (List.mem_cons_of_mem c hx))
    obtain ⟨d, hpd⟩ :=
      Option.isSome_iff_exists.mp (h c (List.mem_cons_self c resto))
    obtain ⟨janela, hj⟩ := janelaConc_ok
      (diasDesdeEpoca d + cfg.janela_concentracao_dias) (c :: resto) h
    by_cases hlen : cfg.min_contratos_concentracao ≤ janela.length
    · exact ⟨_, by
        simp only [concLoop, hpd, hj, if_pos hlen]
        rfl⟩
    · refine ⟨r, ?_⟩
      simp only [concLoop, hpd, hj, if_neg hlen]
      exact hrec

/-- The temporal-concentration rule succeeds when every date is absent/empty
or well-formed. -/
theorem detectarConcentracaoTemporal_ok (cfg : Config)
    (contratos : List Contrato) (h : ∀ c ∈ contratos, dataOkB c = true) :
    ∃ r, detectarConcentracaoTemporal cfg contratos = .ok r := by
  by_cases he : (contratos.filter
      (fun c => (dTruthy c.data_contrato).isSome)).isEmpty = true
  · exact ⟨[], by simp only [detectarConcentracaoTemporal, if_pos he]⟩
  · have hp : ∀ c ∈ (contratos.filter
        (fun c => (dTruthy c.data_contrato).isSome)).mergeSort (fun a b =>
          strLeB (a.data_contrato.getD "") (b.data_contrato.getD "")),
        (parseDate (c.data_contrato.getD "")).isSome = true := by
      intro c hc
      obtain ⟨hcl, hcT⟩ := List.mem_filter.mp (List.mem_mergeSort.mp hc)
      obtain ⟨s, hs⟩ := Option.isSome_iff_exists.mp hcT
      have hok := h c hcl
      unfold dataOkB at hok
      rw [hs] at hok
      rw [dTruthy_getD c.data_contrato s hs]
      exact hok
    obtain ⟨r, hr⟩ := concLoop_ok cfg _ hp
    exact ⟨r.toList,
      by simp only [detectarConcentracaoTemporal, if_neg he, hr]⟩

/-- C2 (amended): contracts with a missing date (absent or empty
`data_contrato`) or a missing value (absent `valor`, which behaves as 0)
are silently tolerated by every rule, and `analisar_contratos` with all
rules enabled succeeds whenever every present, nonempty date string is
well-formed — the contracts here carry numeric-or-absent values by the type
of `Contrato.valor`, and `valor` is otherwise unconstrained; the holiday
rule is total even on malformed dates (it alone guards `strptime` with
`try/except`). Malformed fields are not tolerated: a malformed date string
raises out of the fractioning and temporal-concentration rules, and a
non-numeric value raises out of rule 1 (see the counterexample's two
conjuncts). -/
theorem claimC2_theorem (contratos : List Contrato)
    (h : ∀ c ∈ contratos, dataOkB c = true) :
    ∃ l, analisarContratos defaultConfig contratos = .ok l := by
  obtain ⟨l2, h2⟩ :=
    detectarFracionamento_ok defaultConfig (by decide) contratos h
  obtain ⟨l4, h4⟩ := detectarConcentracaoTemporal_ok defaultConfig contratos h
  exact ⟨_, analisarContratos_default_eq contratos l2 l4 h2 h4⟩

/-- C2 witness: a list holding a dateless contract and a well-dated contract
satisfies the hypothesis, and analysis succeeds on it. -/
theorem claimC2_witness :
    (∀ c ∈ [contrato74999, contratoDatado], dataOkB c = true) ∧
    ∃ l, analisarContratos defaultConfig [contrato74999, contratoDatado] =
      .ok l := by
  have hw : ∀ c ∈ [contrato74999, contratoDatado], dataOkB c = true := by
    intro c hc
    rcases List.mem_cons.mp hc with rfl | hc2
    · with_unfolding_all rfl
    · rcases List.mem_cons.mp hc2 with rfl | hc3
      · with_unfolding_all rfl
      · exact absurd hc3 (List.not_mem_nil c)
  exact ⟨hw, claimC2_theorem [contrato74999, contratoDatado] hw⟩

end BotAjustos
